import Mathlib

/-!
Shallow embedding of the smtp2http message-normalization pipeline
(source: src/unnamed/part_000, the full program; src/main.go is an earlier
variant of the same handler whose domain-check and webhook logic is
identical).

Go strings are byte sequences; we model them as `List Nat` (each entry a
byte value).  `strBytes` renders a Lean string literal as its UTF-8 bytes,
matching Go source literals.  Byte slices (`[]byte`) use the same type.
-/

deriving instance DecidableEq for Except

namespace Smtp2Http

/-- Go `string` / `[]byte`: a sequence of bytes. -/
abbrev GoStr := List Nat

/-- UTF-8 encoding of one character, used to render Lean string literals as
Go byte strings. -/
def utf8Bytes (c : Char) : List Nat :=
  let n := c.toNat
  if n < 128 then [n]
  else if n < 2048 then [192 + n / 64, 128 + n % 64]
  else if n < 65536 then [224 + n / 4096, 128 + (n / 64) % 64, 128 + n % 64]
  else [240 + n / 262144, 128 + (n / 4096) % 64, 128 + (n / 64) % 64, 128 + n % 64]

/-- The bytes of a string literal (UTF-8), as they appear in the Go source. -/
def strBytes (s : String) : GoStr :=
  s.data.flatMap utf8Bytes

/-- Model of Go `strings.ToLower`, exact for every comparison the program
makes.  Go lowercases rune-by-rune with Unicode simple mappings (invalid
UTF-8 bytes become U+FFFD).  The program only ever compares a lowered
string for equality against the pure-ASCII literals "b" and
"windows-1255", and a lowered string can equal a pure-ASCII string only
when every source rune lowercases to an ASCII rune.  The complete set of
simple mappings with an ASCII result is: A-Z → a-z, U+0130 (bytes
196,176) → "i", and U+212A (bytes 226,132,170) → "k".  This function
applies exactly those mappings and keeps every other byte unchanged.
Hence it agrees with Go's `ToLower` on equality with any pure-ASCII
string: when the input is a valid UTF-8 sequence of ASCII, U+0130 and
U+212A runes both functions produce the identical ASCII output (the two
multi-byte patterns are the exact encodings of those runes, and their
lead bytes 196 and 226 can never occur as continuation bytes), and on any
other input both outputs keep at least one byte ≥ 128 (no other rune
lowercases into ASCII, U+FFFD is not ASCII), so neither equals a
pure-ASCII string.  Outside those equality tests the byte-level outputs
may differ from Go's, which the program never observes. -/
def toLowerGo : GoStr → GoStr
  | 196 :: 176 :: rest => 105 :: toLowerGo rest
  | 226 :: 132 :: 170 :: rest => 107 :: toLowerGo rest
  | b :: rest => (if 65 ≤ b ∧ b ≤ 90 then b + 32 else b) :: toLowerGo rest
  | [] => []

/-- Model of Go `strings.Split(s, sep)` for a one-byte separator (the
program only splits on "@" and "?").  Always returns at least one field;
`Split("", sep) = [""]`. -/
def splitByte (sep : Nat) : GoStr → List GoStr
  | [] => [[]]
  | b :: rest =>
    let r := splitByte sep rest
    if b = sep then [] :: r
    else
      match r with
      | [] => [[b]]
      | h :: t => (b :: h) :: t

/-- The base64 standard alphabet, as byte values. -/
def b64Alphabet : GoStr :=
  strBytes "ABCDEFGHIJKLMNOPQRSTUVWXYZabcdefghijklmnopqrstuvwxyz0123456789+/"

/-- Digit of the standard base64 alphabet. -/
def b64Digit (n : Nat) : Nat := b64Alphabet.getD n 0

/-- Model of Go `base64.StdEncoding.EncodeToString`: standard base64 with
"=" (byte 61) padding. -/
def base64Encode : GoStr → GoStr
  | [] => []
  | [b1] => [b64Digit (b1 / 4), b64Digit (b1 % 4 * 16), 61, 61]
  | [b1, b2] => [b64Digit (b1 / 4), b64Digit (b1 % 4 * 16 + b2 / 16),
                 b64Digit (b2 % 16 * 4), 61]
  | b1 :: b2 :: b3 :: rest =>
    b64Digit (b1 / 4) :: b64Digit (b1 % 4 * 16 + b2 / 16) ::
    b64Digit (b2 % 16 * 4 + b3 / 64) :: b64Digit (b3 % 64) :: base64Encode rest

/-- Value of one base64 alphabet byte, `none` for a byte outside the
standard alphabet. -/
def b64Value (c : Nat) : Option Nat :=
  if 65 ≤ c ∧ c ≤ 90 then some (c - 65)
  else if 97 ≤ c ∧ c ≤ 122 then some (c - 97 + 26)
  else if 48 ≤ c ∧ c ≤ 57 then some (c - 48 + 52)
  else if c = 43 then some 62
  else if c = 47 then some 63
  else none

/-- Decoding of newline-free base64 input in strict four-byte quanta: "="
padding only at the end, error (`none`) on a byte outside the alphabet or
a length that is not a multiple of four.  Like Go, trailing bits beyond
the encoded length are ignored rather than rejected. -/
def base64DecodeQuanta : GoStr → Option GoStr
  | [] => some []
  | c1 :: c2 :: c3 :: c4 :: rest =>
    match b64Value c1, b64Value c2 with
    | some v1, some v2 =>
      if c3 = 61 ∧ c4 = 61 ∧ rest = [] then
        some [v1 * 4 + v2 / 16]
      else
        match b64Value c3 with
        | some v3 =>
          if c4 = 61 ∧ rest = [] then
            some [v1 * 4 + v2 / 16, v2 % 16 * 16 + v3 / 4]
          else
            match b64Value c4 with
            | some v4 =>
              (base64DecodeQuanta rest).map
                (fun tail => (v1 * 4 + v2 / 16) :: (v2 % 16 * 16 + v3 / 4) ::
                             (v3 % 4 * 64 + v4) :: tail)
            | none => none
        | none => none
    | _, _ => none
  | _ => none

/-- Model of Go `base64.StdEncoding.DecodeString`: carriage returns (13)
and newlines (10) are ignored wherever they appear, and the remaining
bytes are decoded in strict four-byte quanta. -/
def base64Decode (s : GoStr) : Option GoStr :=
  base64DecodeQuanta (s.filter (fun b => b ≠ 13 ∧ b ≠ 10))

/-- The windows-1255 byte decoder from golang.org/x/text (external library
code, not part of this repository): it maps the raw bytes to their UTF-8
transcoding or fails.  All theorems quantify over it. -/
def Win1255 : Type := GoStr → Except GoStr GoStr

/-- Embedding of `getEncodingByName` (part_000 lines 187-195).  The Go
function returns an `(encoding.Encoding, string)` pair; the encoding object
is determined by the returned canonical name (the windows-1255 decoder in
the "windows-1255" case, the UTF-8 identity in the default case), so the
model returns the canonical name and `convertToUTF8` applies the
windows-1255 decoder exactly when that name is not "utf-8". -/
def getEncodingByName (name : GoStr) : GoStr :=
  if toLowerGo name = strBytes "windows-1255" then strBytes "windows-1255"
  else strBytes "utf-8"

/-- Embedding of `convertToUTF8` (part_000 lines 171-184).  When the
canonical name is not "utf-8" the Go code runs the bytes through the chosen
decoder via `transform.NewReader` + `ReadAll`, returning its error on
failure and its output as a string on success — exactly the application of
the decoder `w`; otherwise it returns `string(data)` unchanged (a Go
string-of-bytes conversion is the identity on the byte sequence). -/
def convertToUTF8 (w : Win1255) (data : GoStr) (charsetName : GoStr) :
    Except GoStr GoStr :=
  if getEncodingByName charsetName ≠ strBytes "utf-8" then w data
  else Except.ok data

/-- Embedding of `decodeCharset` (part_000 lines 198-200). -/
def decodeCharset (w : Win1255) (encodedBody : GoStr) (charsetName : GoStr) :
    Except GoStr GoStr :=
  convertToUTF8 w encodedBody charsetName

/-- Embedding of `decodeMIMEHeader` (part_000 lines 139-168).  Splitting is
on the byte "?" (63); `strings.HasPrefix`/`HasSuffix` are byte-sequence
prefix/suffix tests.  When the value has the envelope shape, five fields,
and encoding "b", the text field is base64-decoded (a Go
`CorruptInputError` is modelled as the fixed error text "illegal base64
data") and charset-converted; with any other encoding control falls through
to the final `return encoded, nil`. -/
def decodeMIMEHeader (w : Win1255) (encoded : GoStr) : Except GoStr GoStr :=
  if (strBytes "=?").isPrefixOf encoded ∧ (strBytes "?=").isSuffixOf encoded then
    if (splitByte 63 encoded).length ≠ 5 then
      Except.error (strBytes "invalid MIME encoding format")
    else
      if toLowerGo ((splitByte 63 encoded).getD 2 []) = strBytes "b" then
        match base64Decode ((splitByte 63 encoded).getD 3 []) with
        | none => Except.error (strBytes "illegal base64 data")
        | some decodedBytes =>
          match convertToUTF8 w decodedBytes
              (toLowerGo ((splitByte 63 encoded).getD 1 [])) with
          | Except.error e => Except.error e
          | Except.ok decodedText => Except.ok decodedText
      else Except.ok encoded
  else Except.ok encoded

/-- A `net/mail` `Address` record: display name plus bare mailbox. -/
structure MailAddress where
  Name : GoStr
  Address : GoStr
deriving DecidableEq, Repr

/-- Canonical address record of the output JSON (`EmailAddress` in the
repository; its struct declaration lives in a file not under src/, the
shape is fixed by the spec data model: `{name, address}`). -/
structure EmailAddress where
  Name : GoStr
  Address : GoStr
deriving DecidableEq, Repr

/-- Modelled from the spec: `transformStdAddressToEmailAddress`, whose
definition is not under src/ (only its call sites are).  Spec §4.3: maps
parsed mail-address records into the stable `{name, address}`
representation, preserves input order, does not deduplicate, is a pure
shape transform. -/
def transformStdAddressToEmailAddress (addrs : List MailAddress) :
    List EmailAddress :=
  addrs.map (fun a => { Name := a.Name, Address := a.Address })

/-- Canonical attachment record: filename, content type, base64 data. -/
structure EmailAttachment where
  Filename : GoStr
  ContentType : GoStr
  Data : GoStr
deriving DecidableEq, Repr

/-- Canonical embedded-file record: content id, content type, base64 data. -/
structure EmailEmbeddedFile where
  CID : GoStr
  ContentType : GoStr
  Data : GoStr
deriving DecidableEq, Repr

/-- The `addresses` block of the canonical message (spec §3). -/
structure EmailAddresses where
  From : EmailAddress
  To : EmailAddress
  Cc : List EmailAddress
  Bcc : List EmailAddress
  ReplyTo : List EmailAddress
  InReplyTo : List GoStr
  ResentFrom : EmailAddress
  ResentTo : List EmailAddress
  ResentCc : List EmailAddress
  ResentBcc : List EmailAddress
deriving DecidableEq, Repr

/-- The `body` block of the canonical message. -/
structure EmailBody where
  HTML : GoStr
  Text : GoStr
deriving DecidableEq, Repr

/-- The canonical output record (`EmailMessage` in the repository; struct
declaration not under src/, shape fixed by spec §3). -/
structure EmailMessage where
  ID : GoStr
  Date : GoStr
  References : List GoStr
  SPFResult : GoStr
  ResentDate : GoStr
  ResentID : GoStr
  Subject : GoStr
  Body : EmailBody
  Addresses : EmailAddresses
  Attachments : List EmailAttachment
  EmbeddedFiles : List EmailEmbeddedFile
deriving DecidableEq, Repr

/-- A readable data stream of an attachment or embedded file, as consumed
by `ioutil.ReadAll`: `bytes` are the bytes the stream yields before it
stops, `readErr` is its terminal outcome (`none` = clean EOF, `some e` = a
read error reported after those bytes).  `ReadAll` returns the accumulated
bytes together with the error; the handler discards the error
(`data, _ := ioutil.ReadAll(a.Data)`), keeping the bytes read so far. -/
structure DataStream where
  bytes : GoStr
  readErr : Option GoStr
deriving DecidableEq, Repr

/-- Result of `ioutil.ReadAll` on a stream: the bytes it yielded before the
terminal outcome.  (The accompanying error value is bound to `_` at both
call sites.) -/
def readAllBytes (s : DataStream) : GoStr := s.bytes

/-- A parsed attachment as exposed by the mail-server collaborator. -/
structure ParsedAttachment where
  Filename : GoStr
  ContentType : GoStr
  Data : DataStream
deriving DecidableEq, Repr

/-- A parsed embedded file as exposed by the mail-server collaborator. -/
structure ParsedEmbeddedFile where
  CID : GoStr
  ContentType : GoStr
  Data : DataStream
deriving DecidableEq, Repr

/-- The parsed-mail object returned by `c.Parse()`.  `DateStr` and
`ResentDateStr` carry the already-rendered `time.Time.String()` values
(opaque to this pipeline). -/
structure ParsedMessage where
  MessageID : GoStr
  DateStr : GoStr
  References : List GoStr
  ResentDateStr : GoStr
  ResentMessageID : GoStr
  Subject : GoStr
  HTMLBody : GoStr
  HTMLCharset : GoStr
  TextBody : GoStr
  TextCharset : GoStr
  InReplyTo : List GoStr
  Cc : List MailAddress
  Bcc : List MailAddress
  ReplyTo : List MailAddress
  ResentFrom : List MailAddress
  ResentTo : List MailAddress
  ResentCc : List MailAddress
  ResentBcc : List MailAddress
  Attachments : List ParsedAttachment
  EmbeddedFiles : List ParsedEmbeddedFile
deriving DecidableEq, Repr

/-- Per-transaction input from the mail-server collaborator: the outcome of
`c.Parse()`, the rendered SPF verdict `spfResult.String()` together with
the evaluation error that `spfResult, _, _ := c.SPF()` discards, and the
envelope `c.From()` / `c.To()` addresses. -/
structure HandlerInput where
  parseResult : Except GoStr ParsedMessage
  spfString : GoStr
  spfErr : Option GoStr
  envFrom : MailAddress
  envTo : MailAddress
deriving DecidableEq, Repr

/-- Outcome of the single webhook HTTP POST: either a transport-level
failure with its cause, or a completed response with status code and
status line. -/
inductive WebhookOutcome where
  | transportError (cause : GoStr)
  | response (statusCode : Nat) (statusLine : GoStr)
deriving DecidableEq, Repr

/-- Observable result of one handler invocation: the error returned to the
SMTP layer (`none` = accepted), the JSON body POSTed to the webhook
(`none` = no POST was issued), and how many attachment/embedded-file data
streams were read. -/
structure HandlerResult where
  err : Option GoStr
  posted : Option EmailMessage
  streamsRead : Nat
deriving DecidableEq, Repr

/-- Construction of the canonical `EmailMessage` (part_000 lines 49-120):
subject via `decodeMIMEHeader` with raw fallback, bodies via
`decodeCharset` with raw fallback, addresses via
`transformStdAddressToEmailAddress` (`ResentFrom` keeps the zero value
unless the source list is non-empty), attachments and embedded files read
in source order and base64-encoded. -/
def buildMessage (w : Win1255) (msg : ParsedMessage) (inp : HandlerInput) :
    EmailMessage :=
  { ID := msg.MessageID
    Date := msg.DateStr
    References := msg.References
    SPFResult := inp.spfString
    ResentDate := msg.ResentDateStr
    ResentID := msg.ResentMessageID
    Subject :=
      match decodeMIMEHeader w msg.Subject with
      | Except.error _ => msg.Subject
      | Except.ok s => s
    Body :=
      { HTML :=
          match decodeCharset w msg.HTMLBody msg.HTMLCharset with
          | Except.error _ => msg.HTMLBody
          | Except.ok s => s
        Text :=
          match decodeCharset w msg.TextBody msg.TextCharset with
          | Except.error _ => msg.TextBody
          | Except.ok s => s }
    Addresses :=
      { From := (transformStdAddressToEmailAddress [inp.envFrom]).getD 0 ⟨[], []⟩
        To := (transformStdAddressToEmailAddress [inp.envTo]).getD 0 ⟨[], []⟩
        Cc := transformStdAddressToEmailAddress msg.Cc
        Bcc := transformStdAddressToEmailAddress msg.Bcc
        ReplyTo := transformStdAddressToEmailAddress msg.ReplyTo
        InReplyTo := msg.InReplyTo
        ResentFrom := (transformStdAddressToEmailAddress msg.ResentFrom).getD 0 ⟨[], []⟩
        ResentTo := transformStdAddressToEmailAddress msg.ResentTo
        ResentCc := transformStdAddressToEmailAddress msg.ResentCc
        ResentBcc := transformStdAddressToEmailAddress msg.ResentBcc }
    Attachments :=
      msg.Attachments.map (fun a =>
        { Filename := a.Filename
          ContentType := a.ContentType
          Data := base64Encode (readAllBytes a.Data) })
    EmbeddedFiles :=
      msg.EmbeddedFiles.map (fun a =>
        { CID := a.CID
          ContentType := a.ContentType
          Data := base64Encode (readAllBytes a.Data) }) }

/-- Embedding of the `HandlerFunc` (part_000 lines 41-132).  Parse failure
returns the parse rejection and touches nothing.  The recipient-domain
check (lines 84-89) splits the canonical To address on "@" (byte 64) and
rejects when the configured domain is non-empty and either the split has
fewer than two fields or field 1 differs from it; rejection happens before
any attachment stream is read and before the webhook POST.  Otherwise the
message is fully built (reading every attachment and embedded-file
stream), POSTed once, and the result classified: transport error → "E1:
...", completed response with status ≠ 200 → "E2: ...", status 200 →
accepted. -/
def handler (w : Win1255) (wh : WebhookOutcome) (flagDomain : GoStr)
    (inp : HandlerInput) : HandlerResult :=
  match inp.parseResult with
  | Except.error e =>
    { err := some (strBytes "Cannot read your message: " ++ e)
      posted := none
      streamsRead := 0 }
  | Except.ok msg =>
    let toAddr := (transformStdAddressToEmailAddress [inp.envTo]).getD 0 ⟨[], []⟩
    let toSplited := splitByte 64 toAddr.Address
    if 0 < flagDomain.length ∧
        (toSplited.length < 2 ∨ toSplited.getD 1 [] ≠ flagDomain) then
      { err := some (strBytes "Unauthorized TO domain")
        posted := none
        streamsRead := 0 }
    else
      let jsonData := buildMessage w msg inp
      let n := msg.Attachments.length + msg.EmbeddedFiles.length
      match wh with
      | WebhookOutcome.transportError _ =>
        { err := some (strBytes "E1: Cannot accept your message due to internal error, please report that to our engineers")
          posted := some jsonData
          streamsRead := n }
      | WebhookOutcome.response code _ =>
        if code ≠ 200 then
          { err := some (strBytes "E2: Cannot accept your message due to internal error, please report that to our engineers")
            posted := some jsonData
            streamsRead := n }
        else
          { err := none
            posted := some jsonData
            streamsRead := n }

/-- The canonical To address exactly as the handler computes it (part_000
lines 82-84): canonicalize the envelope To as a one-element sequence, take
element 0, project the bare address. -/
def canonicalToAddr (tA : MailAddress) : GoStr :=
  ((transformStdAddressToEmailAddress [tA]).getD 0 ⟨[], []⟩).Address

/-- A concrete windows-1255 decoder instance (identity on bytes) used to
instantiate witnesses; the universally quantified theorems hold for every
decoder. -/
def idWin1255 : Win1255 := fun d => Except.ok d

/-- A concrete parsed message with all fields empty, used by witnesses. -/
def sampleMessage : ParsedMessage :=
  ⟨[], [], [], [], [], [], [], [], [], [], [], [], [], [], [], [], [], [], [], []⟩

/-- A concrete handler input around `sampleMessage` with a chosen envelope
To address, used by witnesses. -/
def sampleInput (t : GoStr) : HandlerInput :=
  ⟨Except.ok sampleMessage, strBytes "pass", none,
   ⟨[], strBytes "sender@origin.example"⟩, ⟨[], t⟩⟩

/-- The domain-match shape asserted by the spec sentence behind claim C1,
stated from the spec's words (for comparison with the code's check):
splitting the To address on "@" yields exactly 2 non-empty parts whose
second part equals the allowed domain. -/
def specTwoNonemptyParts (addr dom : GoStr) : Prop :=
  (splitByte 64 addr).length = 2 ∧ (splitByte 64 addr).getD 0 [] ≠ [] ∧
  (splitByte 64 addr).getD 1 [] ≠ [] ∧ (splitByte 64 addr).getD 1 [] = dom

instance (addr dom : GoStr) : Decidable (specTwoNonemptyParts addr dom) := by
  unfold specTwoNonemptyParts
  infer_instance

end Smtp2Http
namespace Smtp2Http

/-- Closed form of the handler on a successfully parsed message: the
domain check, then the webhook classification over the fully built
message.  Holds by definitional unfolding of `handler`. -/
theorem handler_ok_eq (w : Win1255) (wh : WebhookOutcome) (dom : GoStr)
    (msg : ParsedMessage) (spf : GoStr) (spfe : Option GoStr)
    (fA tA : MailAddress) :
    handler w wh dom ⟨Except.ok msg, spf, spfe, fA, tA⟩ =
      if 0 < dom.length ∧
          ((splitByte 64 (canonicalToAddr tA)).length < 2 ∨
           (splitByte 64 (canonicalToAddr tA)).getD 1 [] ≠ dom) then
        ⟨some (strBytes "Unauthorized TO domain"), none, 0⟩
      else
        match wh with
        | WebhookOutcome.transportError _ =>
          ⟨some (strBytes "E1: Cannot accept your message due to internal error, please report that to our engineers"),
           some (buildMessage w msg ⟨Except.ok msg, spf, spfe, fA, tA⟩),
           msg.Attachments.length + msg.EmbeddedFiles.length⟩
        | WebhookOutcome.response code _ =>
          if code ≠ 200 then
            ⟨some (strBytes "E2: Cannot accept your message due to internal error, please report that to our engineers"),
             some (buildMessage w msg ⟨Except.ok msg, spf, spfe, fA, tA⟩),
             msg.Attachments.length + msg.EmbeddedFiles.length⟩
          else
            ⟨none,
             some (buildMessage w msg ⟨Except.ok msg, spf, spfe, fA, tA⟩),
             msg.Attachments.length + msg.EmbeddedFiles.length⟩ := rfl

/-- Claim C1 (corrected): for a parsed message, the handler returns
"Unauthorized TO domain" exactly when the configured domain is non-empty
and the canonical To address, split on "@", either has fewer than two
fields (no "@" at all) or has a second field that differs case-sensitively
from the configured domain.  An empty local part or extra "@"s beyond the
second field do not cause rejection, and an empty configured domain never
rejects. -/
theorem domain_rejection_characterization (w : Win1255) (wh : WebhookOutcome)
    (dom : GoStr) (msg : ParsedMessage) (spf : GoStr) (spfe : Option GoStr)
    (fA tA : MailAddress) :
    (handler w wh dom ⟨Except.ok msg, spf, spfe, fA, tA⟩).err =
        some (strBytes "Unauthorized TO domain") ↔
      0 < dom.length ∧
        ((splitByte 64 (canonicalToAddr tA)).length < 2 ∨
         (splitByte 64 (canonicalToAddr tA)).getD 1 [] ≠ dom) := by
  rw [handler_ok_eq]
  by_cases hc : 0 < dom.length ∧
      ((splitByte 64 (canonicalToAddr tA)).length < 2 ∨
       (splitByte 64 (canonicalToAddr tA)).getD 1 [] ≠ dom)
  · rw [if_pos hc]
    exact iff_of_true rfl hc
  · rw [if_neg hc]
    refine iff_of_false ?_ hc
    cases wh with
    | transportError c =>
      intro h
      exact absurd (Option.some.inj h) (by decide)
    | response code line =>
      dsimp only
      by_cases h200 : code ≠ 200
      · rw [if_pos h200]
        intro h
        exact absurd (Option.some.inj h) (by decide)
      · rw [if_neg h200]
        intro h
        exact Option.noConfusion h

/-- Claim C1, witness: a To address in an unauthorized domain is rejected. -/
theorem domain_rejection_characterization_witness :
    (handler idWin1255 (WebhookOutcome.response 200 []) (strBytes "example.com")
      (sampleInput (strBytes "user@other.com"))).err =
      some (strBytes "Unauthorized TO domain") :=
  (domain_rejection_characterization idWin1255 (WebhookOutcome.response 200 [])
    (strBytes "example.com") sampleMessage (strBytes "pass") none
    ⟨[], strBytes "sender@origin.example"⟩ ⟨[], strBytes "user@other.com"⟩).mpr
    (by decide)

/-- Claim C1, counterexample to the claim as stated: with allowed domain
"example.com", the To address "@example.com" does not split into two
non-empty parts (its local part is empty), so the claim requires
rejection, yet the handler accepts the message; likewise
"a@example.com@evil" splits into three parts, and the handler accepts. -/
theorem domain_rejection_spec_shape_counterexample :
    (handler idWin1255 (WebhookOutcome.response 200 []) (strBytes "example.com")
        (sampleInput (strBytes "@example.com"))).err = none ∧
    ¬ specTwoNonemptyParts (strBytes "@example.com") (strBytes "example.com") ∧
    (handler idWin1255 (WebhookOutcome.response 200 []) (strBytes "example.com")
        (sampleInput (strBytes "a@example.com@evil"))).err = none ∧
    ¬ specTwoNonemptyParts (strBytes "a@example.com@evil") (strBytes "example.com") := by
  refine ⟨by decide, ?_, by decide, ?_⟩
  · unfold specTwoNonemptyParts
    decide
  · unfold specTwoNonemptyParts
    decide

/-- Claim C2 (corrected): a whole-value encoded word with five fields whose
encoding field is not base64 "b" (case-insensitive), e.g. quoted-printable
"Q", makes `decodeMIMEHeader` fall through and return the original raw
string with NO error; the subject therefore retains the raw header value
via the success path, not via the error fallback. -/
theorem q_encoding_returns_raw_without_error (w : Win1255)
    (wh : WebhookOutcome) (dom : GoStr) (msg : ParsedMessage) (spf : GoStr)
    (spfe : Option GoStr) (fA tA : MailAddress)
    (hpre : (strBytes "=?").isPrefixOf msg.Subject = true)
    (hsuf : (strBytes "?=").isSuffixOf msg.Subject = true)
    (hlen : (splitByte 63 msg.Subject).length = 5)
    (henc : toLowerGo ((splitByte 63 msg.Subject).getD 2 []) ≠ strBytes "b") :
    decodeMIMEHeader w msg.Subject = Except.ok msg.Subject ∧
    ((handler w wh dom ⟨Except.ok msg, spf, spfe, fA, tA⟩).posted.map
        (fun m => m.Subject)) =
      ((handler w wh dom ⟨Except.ok msg, spf, spfe, fA, tA⟩).posted.map
        (fun _ => msg.Subject)) := by
  have hdec : decodeMIMEHeader w msg.Subject = Except.ok msg.Subject := by
    unfold decodeMIMEHeader
    rw [if_pos ⟨hpre, hsuf⟩, if_neg (fun hx => hx hlen), if_neg henc]
  refine ⟨hdec, ?_⟩
  have hsub : (buildMessage w msg ⟨Except.ok msg, spf, spfe, fA, tA⟩).Subject =
      msg.Subject := by
    show (match decodeMIMEHeader w msg.Subject with
          | Except.error _ => msg.Subject
          | Except.ok s => s) = msg.Subject
    rw [hdec]
  rw [handler_ok_eq]
  by_cases hc : 0 < dom.length ∧
      ((splitByte 64 (canonicalToAddr tA)).length < 2 ∨
       (splitByte 64 (canonicalToAddr tA)).getD 1 [] ≠ dom)
  · rw [if_pos hc]
    rfl
  · rw [if_neg hc]
    cases wh with
    | transportError c =>
      simp only [Option.map, hsub]
    | response code line =>
      dsimp only
      by_cases h200 : code ≠ 200
      · rw [if_pos h200]
        simp only [Option.map, hsub]
      · rw [if_neg h200]
        simp only [Option.map, hsub]

/-- Claim C2, witness: the quoted-printable subject "=?utf-8?Q?abc?=" is
returned unchanged without error and is kept verbatim as the subject. -/
theorem q_encoding_returns_raw_without_error_witness :
    decodeMIMEHeader idWin1255 (strBytes "=?utf-8?Q?abc?=") =
      Except.ok (strBytes "=?utf-8?Q?abc?=") ∧
    ((handler idWin1255 (WebhookOutcome.response 200 []) []
        ⟨Except.ok { sampleMessage with Subject := strBytes "=?utf-8?Q?abc?=" },
         strBytes "pass", none, ⟨[], []⟩, ⟨[], strBytes "u@x"⟩⟩).posted.map
      (fun m => m.Subject)) =
      ((handler idWin1255 (WebhookOutcome.response 200 []) []
        ⟨Except.ok { sampleMessage with Subject := strBytes "=?utf-8?Q?abc?=" },
         strBytes "pass", none, ⟨[], []⟩, ⟨[], strBytes "u@x"⟩⟩).posted.map
      (fun _ => strBytes "=?utf-8?Q?abc?=")) :=
  q_encoding_returns_raw_without_error idWin1255 (WebhookOutcome.response 200 [])
    [] { sampleMessage with Subject := strBytes "=?utf-8?Q?abc?=" }
    (strBytes "pass") none ⟨[], []⟩ ⟨[], strBytes "u@x"⟩
    (by decide) (by decide) (by decide) (by decide)

/-- Claim C2, counterexample to the claim as stated: on the Q-encoded
header "=?utf-8?Q?abc?=" the decoder does NOT return an error; it returns
the raw value through the success path. -/
theorem q_encoding_error_counterexample :
    decodeMIMEHeader idWin1255 (strBytes "=?utf-8?Q?abc?=") =
      Except.ok (strBytes "=?utf-8?Q?abc?=") ∧
    (decodeMIMEHeader idWin1255 (strBytes "=?utf-8?Q?abc?=")).isOk = true := by
  exact ⟨by decide, by decide⟩

end Smtp2Http
namespace Smtp2Http

/-- Claim C3 (confirmed): past the domain check, the webhook relay
succeeds exactly when the POST completes with status code 200; a
transport-level failure yields the "E1: ..." rejection and a completed
response with any status other than 200 yields the "E2: ..." rejection. -/
theorem webhook_delivery_classification (w : Win1255) (dom : GoStr)
    (msg : ParsedMessage) (spf : GoStr) (spfe : Option GoStr)
    (fA tA : MailAddress) (cause : GoStr) (code : Nat) (line : GoStr)
    (hdom : ¬ (0 < dom.length ∧
      ((splitByte 64 (canonicalToAddr tA)).length < 2 ∨
       (splitByte 64 (canonicalToAddr tA)).getD 1 [] ≠ dom))) :
    (handler w (WebhookOutcome.transportError cause) dom
        ⟨Except.ok msg, spf, spfe, fA, tA⟩).err =
      some (strBytes "E1: Cannot accept your message due to internal error, please report that to our engineers") ∧
    ((handler w (WebhookOutcome.response code line) dom
        ⟨Except.ok msg, spf, spfe, fA, tA⟩).err = none ↔ code = 200) ∧
    (code ≠ 200 →
      (handler w (WebhookOutcome.response code line) dom
          ⟨Except.ok msg, spf, spfe, fA, tA⟩).err =
        some (strBytes "E2: Cannot accept your message due to internal error, please report that to our engineers")) := by
  refine ⟨?_, ?_, ?_⟩
  · rw [handler_ok_eq, if_neg hdom]
  · rw [handler_ok_eq, if_neg hdom]
    dsimp only
    by_cases h200 : code ≠ 200
    · rw [if_pos h200]
      exact iff_of_false (fun h => Option.noConfusion h) h200
    · rw [if_neg h200]
      exact iff_of_true rfl (not_not.mp h200)
  · intro h200
    rw [handler_ok_eq, if_neg hdom]
    dsimp only
    rw [if_pos h200]

/-- Claim C3, witness: with no domain restriction, a 200 response is
accepted, a 500 response is rejected with "E2: ...", and a transport
failure is rejected with "E1: ...". -/
theorem webhook_delivery_classification_witness :
    (handler idWin1255 (WebhookOutcome.transportError (strBytes "connection refused"))
        [] (sampleInput (strBytes "user@example.com"))).err =
      some (strBytes "E1: Cannot accept your message due to internal error, please report that to our engineers") ∧
    (handler idWin1255 (WebhookOutcome.response 200 (strBytes "200 OK"))
        [] (sampleInput (strBytes "user@example.com"))).err = none ∧
    (handler idWin1255 (WebhookOutcome.response 500 (strBytes "500 Internal Server Error"))
        [] (sampleInput (strBytes "user@example.com"))).err =
      some (strBytes "E2: Cannot accept your message due to internal error, please report that to our engineers") := by
  have h1 := webhook_delivery_classification idWin1255 [] sampleMessage
    (strBytes "pass") none ⟨[], strBytes "sender@origin.example"⟩
    ⟨[], strBytes "user@example.com"⟩ (strBytes "connection refused")
    200 (strBytes "200 OK") (by decide)
  have h2 := webhook_delivery_classification idWin1255 [] sampleMessage
    (strBytes "pass") none ⟨[], strBytes "sender@origin.example"⟩
    ⟨[], strBytes "user@example.com"⟩ (strBytes "connection refused")
    500 (strBytes "500 Internal Server Error") (by decide)
  exact ⟨h1.1, h1.2.1.mpr rfl, h2.2.2 (by decide)⟩

/-- Claim C4 (confirmed): when the recipient-domain check fails, the
handler returns exactly the "Unauthorized TO domain" rejection with no
webhook POST issued (`posted = none`) and no attachment or embedded-file
stream read (`streamsRead = 0`). -/
theorem domain_rejection_stops_processing (w : Win1255) (wh : WebhookOutcome)
    (dom : GoStr) (msg : ParsedMessage) (spf : GoStr) (spfe : Option GoStr)
    (fA tA : MailAddress)
    (hdom : 0 < dom.length ∧
      ((splitByte 64 (canonicalToAddr tA)).length < 2 ∨
       (splitByte 64 (canonicalToAddr tA)).getD 1 [] ≠ dom)) :
    handler w wh dom ⟨Except.ok msg, spf, spfe, fA, tA⟩ =
      { err := some (strBytes "Unauthorized TO domain")
        posted := none
        streamsRead := 0 } := by
  rw [handler_ok_eq, if_pos hdom]

/-- Claim C4, witness: a message carrying an attachment to a disallowed
domain is rejected with no stream read and no POST. -/
theorem domain_rejection_stops_processing_witness :
    handler idWin1255 (WebhookOutcome.response 200 []) (strBytes "example.com")
      ⟨Except.ok { sampleMessage with
          Attachments := [⟨strBytes "f.bin", strBytes "application/octet-stream",
                           ⟨[1, 2, 3], none⟩⟩] },
        strBytes "pass", none, ⟨[], strBytes "sender@origin.example"⟩,
        ⟨[], strBytes "user@other.com"⟩⟩ =
      { err := some (strBytes "Unauthorized TO domain")
        posted := none
        streamsRead := 0 } :=
  domain_rejection_stops_processing idWin1255 (WebhookOutcome.response 200 [])
    (strBytes "example.com")
    { sampleMessage with
      Attachments := [⟨strBytes "f.bin", strBytes "application/octet-stream",
                       ⟨[1, 2, 3], none⟩⟩] }
    (strBytes "pass") none ⟨[], strBytes "sender@origin.example"⟩
    ⟨[], strBytes "user@other.com"⟩ (by decide)

/-- Claim C5 (confirmed): for every byte sequence and every charset name
that either Go-lowercases to "utf-8" or does not Go-lowercase to the one
registered name "windows-1255", `convertToUTF8` returns the input bytes
unchanged and no error, for any windows-1255 decoder. -/
theorem charset_passthrough (w : Win1255) (data name : GoStr)
    (h : toLowerGo name = strBytes "utf-8" ∨
         toLowerGo name ≠ strBytes "windows-1255") :
    convertToUTF8 w data name = Except.ok data := by
  have hne : toLowerGo name ≠ strBytes "windows-1255" := by
    cases h with
    | inl h1 => rw [h1]; decide
    | inr h2 => exact h2
  unfold convertToUTF8 getEncodingByName
  rw [if_neg hne, if_neg (fun hx => hx rfl)]

/-- Claim C5, witness: an uppercase UTF-8 name and an unknown charset name
both pass the bytes through unchanged without error. -/
theorem charset_passthrough_witness :
    convertToUTF8 idWin1255 [1, 2, 3] (strBytes "UTF-8") = Except.ok [1, 2, 3] ∧
    convertToUTF8 idWin1255 [1, 2, 3] (strBytes "x-unknown-charset") =
      Except.ok [1, 2, 3] :=
  ⟨charset_passthrough idWin1255 [1, 2, 3] (strBytes "UTF-8") (Or.inl (by decide)),
   charset_passthrough idWin1255 [1, 2, 3] (strBytes "x-unknown-charset")
     (Or.inr (by decide))⟩

/-- Claim C6 (confirmed): a value is treated as an encoded word only when
it starts with "=?" and ends with "?="; such a value whose "?"-split does
not have exactly 5 fields makes `decodeMIMEHeader` return an error, and
every value outside the envelope is returned unchanged with no error. -/
theorem mime_envelope_shape_handling (w : Win1255) (s : GoStr) :
    (¬ ((strBytes "=?").isPrefixOf s = true ∧ (strBytes "?=").isSuffixOf s = true) →
      decodeMIMEHeader w s = Except.ok s) ∧
    (((strBytes "=?").isPrefixOf s = true ∧ (strBytes "?=").isSuffixOf s = true) →
      (splitByte 63 s).length ≠ 5 →
      decodeMIMEHeader w s = Except.error (strBytes "invalid MIME encoding format")) := by
  constructor
  · intro h
    unfold decodeMIMEHeader
    rw [if_neg h]
  · intro h hlen
    unfold decodeMIMEHeader
    rw [if_pos h, if_pos hlen]

/-- Claim C6, witness: a plain subject passes through unchanged, and an
envelope-shaped value with three fields is an error. -/
theorem mime_envelope_shape_handling_witness :
    decodeMIMEHeader idWin1255 (strBytes "Plain subject") =
      Except.ok (strBytes "Plain subject") ∧
    decodeMIMEHeader idWin1255 (strBytes "=?a?=") =
      Except.error (strBytes "invalid MIME encoding format") :=
  ⟨(mime_envelope_shape_handling idWin1255 (strBytes "Plain subject")).1 (by decide),
   (mime_envelope_shape_handling idWin1255 (strBytes "=?a?=")).2 (by decide) (by decide)⟩

/-- Claim C7 (corrected): past the domain check, every attachment and
embedded file is materialized in source order with its data field the
standard base64 encoding of the bytes obtained from its stream; a read
failure is non-fatal (the error is discarded, the message is still built
and POSTed), but the payload is the base64 encoding of the bytes the
stream yielded before failing — empty only when the failure yields no
bytes. -/
theorem attachment_materialization (w : Win1255) (wh : WebhookOutcome)
    (dom : GoStr) (msg : ParsedMessage) (spf : GoStr) (spfe : Option GoStr)
    (fA tA : MailAddress)
    (hdom : ¬ (0 < dom.length ∧
      ((splitByte 64 (canonicalToAddr tA)).length < 2 ∨
       (splitByte 64 (canonicalToAddr tA)).getD 1 [] ≠ dom))) :
    ((handler w wh dom ⟨Except.ok msg, spf, spfe, fA, tA⟩).posted.map
        (fun m => m.Attachments)) =
      some (msg.Attachments.map (fun a =>
        { Filename := a.Filename
          ContentType := a.ContentType
          Data := base64Encode a.Data.bytes })) ∧
    ((handler w wh dom ⟨Except.ok msg, spf, spfe, fA, tA⟩).posted.map
        (fun m => m.EmbeddedFiles)) =
      some (msg.EmbeddedFiles.map (fun a =>
        { CID := a.CID
          ContentType := a.ContentType
          Data := base64Encode a.Data.bytes })) := by
  rw [handler_ok_eq, if_neg hdom]
  cases wh with
  | transportError c => exact ⟨rfl, rfl⟩
  | response code line =>
    dsimp only
    by_cases h200 : code ≠ 200
    · rw [if_pos h200]
      exact ⟨rfl, rfl⟩
    · rw [if_neg h200]
      exact ⟨rfl, rfl⟩

/-- Claim C7, witness: an attachment with bytes 1, 2, 3 produces the
base64 payload "AQID". -/
theorem attachment_materialization_witness :
    ((handler idWin1255 (WebhookOutcome.response 200 []) []
        ⟨Except.ok { sampleMessage with
            Attachments := [⟨strBytes "report.pdf", strBytes "application/pdf",
                             ⟨[1, 2, 3], none⟩⟩] },
          strBytes "pass", none, ⟨[], strBytes "sender@origin.example"⟩,
          ⟨[], strBytes "user@example.com"⟩⟩).posted.map
      (fun m => m.Attachments)) =
      some [{ Filename := strBytes "report.pdf"
              ContentType := strBytes "application/pdf"
              Data := strBytes "AQID" }] := by
  have h := attachment_materialization idWin1255 (WebhookOutcome.response 200 [])
    [] { sampleMessage with
         Attachments := [⟨strBytes "report.pdf", strBytes "application/pdf",
                          ⟨[1, 2, 3], none⟩⟩] }
    (strBytes "pass") none ⟨[], strBytes "sender@origin.example"⟩
    ⟨[], strBytes "user@example.com"⟩ (by decide)
  exact h.1.trans (by decide)

/-- Claim C7, counterexample to the claim as stated: an attachment whose
stream yields the byte 1 and then fails produces the payload "AQ==" — the
base64 of the partially read bytes — not an empty payload, while the
message is still accepted. -/
theorem attachment_empty_payload_counterexample :
    ((handler idWin1255 (WebhookOutcome.response 200 []) []
        ⟨Except.ok { sampleMessage with
            Attachments := [⟨strBytes "f.bin", strBytes "application/octet-stream",
                             ⟨[1], some (strBytes "unexpected EOF")⟩⟩] },
          strBytes "pass", none, ⟨[], strBytes "sender@origin.example"⟩,
          ⟨[], strBytes "user@example.com"⟩⟩).posted.map
      (fun m => m.Attachments.map (fun a => a.Data))) = some [strBytes "AQ=="] ∧
    strBytes "AQ==" ≠ strBytes "" ∧
    (handler idWin1255 (WebhookOutcome.response 200 []) []
        ⟨Except.ok { sampleMessage with
            Attachments := [⟨strBytes "f.bin", strBytes "application/octet-stream",
                             ⟨[1], some (strBytes "unexpected EOF")⟩⟩] },
          strBytes "pass", none, ⟨[], strBytes "sender@origin.example"⟩,
          ⟨[], strBytes "user@example.com"⟩⟩).err = none := by
  exact ⟨by decide, by decide, by decide⟩

end Smtp2Http
namespace Smtp2Http

/-- Claim C8 (confirmed, spec-modelled): canonicalizing a sequence of N
source address records yields exactly N `EmailAddress` values, and the
value at every index is the shape transform of the source record at that
same index (order preserved, equal records kept as distinct entries). -/
theorem address_canonicalization_shape (l : List MailAddress) :
    (transformStdAddressToEmailAddress l).length = l.length ∧
    ∀ i : Nat, i < l.length →
      (transformStdAddressToEmailAddress l).getD i ⟨[], []⟩ =
        ⟨(l.getD i ⟨[], []⟩).Name, (l.getD i ⟨[], []⟩).Address⟩ := by
  constructor
  · exact List.length_map l _
  · intro i
    induction l generalizing i with
    | nil => intro hi; exact absurd hi (by simp)
    | cons a t ih =>
      intro hi
      cases i with
      | zero => rfl
      | succ j => exact ih j (by simpa using hi)

/-- Claim C8, witness: a two-element list with duplicate addresses keeps
length 2 and both positions, undeduplicated. -/
theorem address_canonicalization_shape_witness :
    (transformStdAddressToEmailAddress
        [⟨strBytes "A", strBytes "a@x"⟩, ⟨strBytes "B", strBytes "a@x"⟩]).length = 2 ∧
    (transformStdAddressToEmailAddress
        [⟨strBytes "A", strBytes "a@x"⟩, ⟨strBytes "B", strBytes "a@x"⟩]).getD 1 ⟨[], []⟩ =
      ⟨strBytes "B", strBytes "a@x"⟩ :=
  ⟨(address_canonicalization_shape
      [⟨strBytes "A", strBytes "a@x"⟩, ⟨strBytes "B", strBytes "a@x"⟩]).1,
   (address_canonicalization_shape
      [⟨strBytes "A", strBytes "a@x"⟩, ⟨strBytes "B", strBytes "a@x"⟩]).2 1 (by decide)⟩

/-- Claim C9 (confirmed): for a successfully parsed message the produced
record's `SPFResult` field is exactly the rendered SPF verdict handed in
by the mail-server collaborator, the discarded SPF evaluation error is
never consulted, and changing the verdict or that error changes neither
the handler's accept/reject outcome nor any other part of the result. -/
theorem spf_result_passthrough (w : Win1255) (wh : WebhookOutcome)
    (dom : GoStr) (msg : ParsedMessage) (spf1 spf2 : GoStr)
    (e1 e2 : Option GoStr) (fA tA : MailAddress) :
    (handler w wh dom ⟨Except.ok msg, spf1, e1, fA, tA⟩).err =
      (handler w wh dom ⟨Except.ok msg, spf2, e2, fA, tA⟩).err ∧
    (handler w wh dom ⟨Except.ok msg, spf1, e1, fA, tA⟩).streamsRead =
      (handler w wh dom ⟨Except.ok msg, spf2, e2, fA, tA⟩).streamsRead ∧
    ((handler w wh dom ⟨Except.ok msg, spf1, e1, fA, tA⟩).posted.map
        (fun m => m.SPFResult)) =
      ((handler w wh dom ⟨Except.ok msg, spf1, e1, fA, tA⟩).posted.map
        (fun _ => spf1)) ∧
    ((handler w wh dom ⟨Except.ok msg, spf1, e1, fA, tA⟩).posted.map
        (fun m => { m with SPFResult := spf2 })) =
      (handler w wh dom ⟨Except.ok msg, spf2, e2, fA, tA⟩).posted := by
  rw [handler_ok_eq, handler_ok_eq]
  by_cases hc : 0 < dom.length ∧
      ((splitByte 64 (canonicalToAddr tA)).length < 2 ∨
       (splitByte 64 (canonicalToAddr tA)).getD 1 [] ≠ dom)
  · rw [if_pos hc, if_pos hc]
    exact ⟨rfl, rfl, rfl, rfl⟩
  · rw [if_neg hc, if_neg hc]
    cases wh with
    | transportError c => exact ⟨rfl, rfl, rfl, rfl⟩
    | response code line =>
      dsimp only
      by_cases h200 : code ≠ 200
      · rw [if_pos h200, if_pos h200]
        exact ⟨rfl, rfl, rfl, rfl⟩
      · rw [if_neg h200, if_neg h200]
        exact ⟨rfl, rfl, rfl, rfl⟩

/-- Claim C10 (confirmed): the charset registry's only non-UTF-8 entry is
"windows-1255": after `strings.ToLower` normalization that name, and only
that name, selects the transcoding decoder (so only there can a decoding
error arise); every other name, the empty string included, takes the
UTF-8 identity branch. -/
theorem charset_registry_exactness (w : Win1255) (data name : GoStr) :
    (getEncodingByName name = strBytes "windows-1255" ↔
      toLowerGo name = strBytes "windows-1255") ∧
    (toLowerGo name ≠ strBytes "windows-1255" →
      getEncodingByName name = strBytes "utf-8" ∧
      convertToUTF8 w data name = Except.ok data) ∧
    (toLowerGo name = strBytes "windows-1255" →
      convertToUTF8 w data name = w data) := by
  by_cases h : toLowerGo name = strBytes "windows-1255"
  · have hg : getEncodingByName name = strBytes "windows-1255" := by
      unfold getEncodingByName
      rw [if_pos h]
    refine ⟨iff_of_true hg h, fun hn => absurd h hn, fun _ => ?_⟩
    unfold convertToUTF8
    rw [hg, if_pos (by decide)]
  · have hg : getEncodingByName name = strBytes "utf-8" := by
      unfold getEncodingByName
      rw [if_neg h]
    refine ⟨iff_of_false ?_ h, fun _ => ⟨hg, ?_⟩, fun hx => absurd hx h⟩
    · rw [hg]
      decide
    · unfold convertToUTF8
      rw [hg, if_neg (fun hx => hx rfl)]

/-- Claim C10, witness: "Windows-1255" (mixed case) and "Wİndows-1255"
(capital dotted I, U+0130, which Go lowercases to "i") both route the
bytes through the decoder, while "ISO-8859-8" and the empty string take
the UTF-8 identity branch. -/
theorem charset_registry_exactness_witness :
    convertToUTF8 idWin1255 [1] (strBytes "Windows-1255") = idWin1255 [1] ∧
    convertToUTF8 idWin1255 [1] (strBytes "Wİndows-1255") = idWin1255 [1] ∧
    getEncodingByName (strBytes "ISO-8859-8") = strBytes "utf-8" ∧
    convertToUTF8 idWin1255 [1] (strBytes "ISO-8859-8") = Except.ok [1] ∧
    convertToUTF8 idWin1255 [1] [] = Except.ok [1] :=
  ⟨(charset_registry_exactness idWin1255 [1] (strBytes "Windows-1255")).2.2 (by decide),
   (charset_registry_exactness idWin1255 [1] (strBytes "Wİndows-1255")).2.2 (by decide),
   ((charset_registry_exactness idWin1255 [1] (strBytes "ISO-8859-8")).2.1 (by decide)).1,
   ((charset_registry_exactness idWin1255 [1] (strBytes "ISO-8859-8")).2.1 (by decide)).2,
   ((charset_registry_exactness idWin1255 [1] []).2.1 (by decide)).2⟩

end Smtp2Http
